import Mathlib

set_option linter.unusedVariables false
set_option maxRecDepth 100000

/-- Truthy-or-default for the JavaScript idiom `a || b` on an optional string:
returns the string when it is present and non-empty, otherwise the default. -/
def jsOrDefault (o : Option String) (d : String) : String :=
  match o with
  | none => d
  | some s => if s = "" then d else s

/-- Drop trailing zero characters from a string, modelling the source's
`replace(/0+$/, "")` on the fractional part. -/
def dropTrailingZeros (s : String) : String :=
  String.mk ((s.toList.reverse.dropWhile (fun c => c = '0')).reverse)

/-- Left-pad a string with zero characters to the requested length, modelling
`padStart(n, "0")`. -/
def padStartZeros (s : String) (n : Nat) : String :=
  if n ≤ s.length then s else String.mk (List.replicate (n - s.length) '0') ++ s

/-- Fueled floor of the base-2 logarithm of a natural number; with fuel at
least the number itself this equals the floor of log2 for positive inputs. -/
def log2Fuel : Nat → Nat → Nat
  | 0, _ => 0
  | fuel + 1, n => if n ≤ 1 then 0 else log2Fuel fuel (n / 2) + 1

/-- Floor of the base-2 logarithm of a positive natural number. -/
def natLog2 (n : Nat) : Nat := log2Fuel n n

/-- Power of two as a rational, for a possibly negative integer exponent. -/
def ratPow2 (e : Int) : ℚ :=
  if 0 ≤ e then ((2 ^ e.toNat : Nat) : ℚ) else 1 / ((2 ^ (-e).toNat : Nat) : ℚ)

/-- Floor of a rational number as an integer. -/
def ratFloor (q : ℚ) : Int := Int.fdiv q.num (q.den : Int)

/-- Floor of the base-2 logarithm of a positive rational. -/
def ratLog2Floor (q : ℚ) : Int :=
  let t := natLog2 q.den + 1
  (natLog2 (q.num.toNat * 2 ^ t / q.den) : Int) - t

/-- Round a rational to the nearest integer, ties going to the even integer
(the IEEE-754 default rounding used for decimal-to-double conversion and for
double multiplication). -/
def roundNearestEven (r : ℚ) : Int :=
  let f := ratFloor r
  let frac := r - (f : ℚ)
  if frac < 1 / 2 then f
  else if 1 / 2 < frac then f + 1
  else if f % 2 = 0 then f else f + 1

/-- Round a positive rational to the nearest IEEE-754 binary64 value (exactly
representable as a rational): the significand is scaled to 53 bits and rounded
to nearest, ties to even. Overflow and subnormals are outside the range used
by this development and are not modelled. -/
def roundPosDouble (q : ℚ) : ℚ :=
  let e := ratLog2Floor q
  let scale := ratPow2 (e - 52)
  (roundNearestEven (q / scale) : ℚ) * scale

/-- Round any rational in the binary64 normal range to the nearest binary64
value, as performed by JavaScript for every arithmetic result. -/
def roundDouble (q : ℚ) : ℚ :=
  if q = 0 then 0
  else if q < 0 then -roundPosDouble (-q)
  else roundPosDouble q

/-- Evaluate a list of decimal digit characters into a natural number;
`none` when a non-digit character occurs. -/
def digitsVal : List Char → Nat → Option Nat
  | [], acc => some acc
  | c :: cs, acc => if c.isDigit then digitsVal cs (acc * 10 + (c.toNat - 48)) else none

/-- Exact rational value of a decimal string (optional sign, integer digits,
optional dot and fraction digits). `none` models NaN for strings that are not
well-formed decimal literals; the prefix salvage that JavaScript parseFloat
performs on trailing garbage is not used by this repository and not modelled. -/
def parseDecimalString (s : String) : Option ℚ :=
  let cs := s.toList
  let signed : Bool × List Char :=
    match cs with
    | '-' :: rest => (true, rest)
    | '+' :: rest => (false, rest)
    | _ => (false, cs)
  let neg := signed.1
  let body := signed.2
  let ip := body.takeWhile (fun c => c != '.')
  let rest := body.dropWhile (fun c => c != '.')
  let fpOk : Option (List Char) :=
    match rest with
    | [] => some []
    | _ :: fr => if fr.contains '.' then none else some fr
  match fpOk with
  | none => none
  | some fp =>
    if ip.isEmpty && fp.isEmpty then none
    else
      match digitsVal ip 0, digitsVal fp 0 with
      | some i, some f =>
        let q : ℚ := (i : ℚ) + (f : ℚ) / ((10 : ℚ) ^ fp.length)
        some (if neg then -q else q)
      | _, _ => none

/-- JavaScript `parseFloat` on a well-formed decimal string: the exact decimal
value correctly rounded to the nearest binary64 value; `none` models NaN. -/
def jsParseFloat (s : String) : Option ℚ := (parseDecimalString s).map roundDouble

/-- JavaScript `Math.round`: nearest integer, ties toward positive infinity. -/
def jsMathRound (q : ℚ) : Int := ratFloor (q + 1 / 2)

/-- Token decimals hardcoded by the source for the TRC-20 token (line 191,
255, 322 of lib/blockchain.ts). -/
def tokenDecimals : Nat := 6

/-- Decimal-amount-to-base-units conversion exactly as the Tron mint and burn
paths perform it: `BigInt(Math.round(parseFloat(amount) * (10 ** tokenDecimals)))`.
`10 ** 6` is exactly representable in binary64, the multiplication result is
rounded to binary64, and `BigInt` of NaN (modelled by `none`) throws. -/
def toBaseUnitsTrc20 (amount : String) : Option Int :=
  (jsParseFloat amount).map
    (fun x => jsMathRound (roundDouble (x * ((10 : ℚ) ^ tokenDecimals))))

/-- Modelled from the spec: the mathematically exact scaled value of a decimal
amount string, `amount * 10^decimals`, defined exactly when the result is an
integer (at most `tokenDecimals` fractional digits). This is the comparison
definition for the spec's demand of exact integer conversion. -/
def specExactBaseUnits (amount : String) : Option Int :=
  match parseDecimalString amount with
  | none => none
  | some q =>
    let scaled := q * (10 : ℚ) ^ tokenDecimals
    if scaled.den = 1 then some scaled.num else none

/-- Base-units-to-display-string conversion exactly as the Tron balance path
performs it (lib/blockchain.ts lines 324-331): BigInt integer division and
modulo by `10 ^ tokenDecimals`, zero-padding of the fractional part, trailing
zeros stripped, fractional part omitted when it trims to nothing. -/
def formatTrc20Balance (rawBalance : Nat) : String :=
  let divisor := 10 ^ tokenDecimals
  let integerPart := toString (rawBalance / divisor)
  let fractionalPart := padStartZeros (toString (rawBalance % divisor)) tokenDecimals
  let trimmedFractional := dropTrailingZeros fractionalPart
  if trimmedFractional = "" then integerPart
  else integerPart ++ "." ++ trimmedFractional


/-- Base-units-to-display conversion as the EVM balance path performs it via
ethers v6 `formatEther`: 18 decimals, trailing fractional zeros trimmed but at
least one fractional digit kept. -/
def formatEther (balanceWei : Nat) : String :=
  let divisor := 10 ^ 18
  let integerPart := toString (balanceWei / divisor)
  let fractionalPart := dropTrailingZeros (padStartZeros (toString (balanceWei % divisor)) 18)
  integerPart ++ "." ++ (if fractionalPart = "" then "0" else fractionalPart)

/-- Error value thrown by the EVM SDK or by plain `new Error(...)`: an object
with an optional numeric code, an optional short-form message, and an optional
message. A field holding an empty string behaves as falsy under `||`. -/
structure JsErr where
  code : Option Int
  shortMessage : Option String
  message : Option String
deriving Repr

/-- Message selection of the EVM catch blocks:
`error.shortMessage || error.message || default`. -/
def evmCatchMsg (e : JsErr) (dflt : String) : String :=
  jsOrDefault e.shortMessage (jsOrDefault e.message dflt)

/-- Error value surfaced by the Tron SDK: either a raw string or an object
with an optional message; `stringified` is what `JSON.stringify` would return
for the object (the fallback the source uses when the message is falsy). -/
inductive TronErr
  | str (s : String)
  | obj (message : Option String) (stringified : String)
deriving Repr

/-- Error object created by `throw new Error(m)` inside the Tron paths. -/
def jsErrorObj (m : String) : TronErr := TronErr.obj (some m) "\x7b\x7d"

/-- Message normalization of the Tron catch blocks:
`typeof error === "string" ? error : (error.message || JSON.stringify(error))`,
then `new Error(errorMessage || default)`. -/
def tronErrMsg : TronErr → String → String
  | TronErr.str s, dflt => if s = "" then dflt else s
  | TronErr.obj msg strf, dflt =>
    let m := jsOrDefault msg strf
    if m = "" then dflt else m

/-- ethers v6 `parseEther`: exact decimal parse scaled by `10 ^ 18`; throws
when the string is not a decimal literal or has more than 18 fractional
digits. -/
def parseEther (amount : String) : Except JsErr Int :=
  match parseDecimalString amount with
  | none => .error ⟨none, some "invalid decimal value", none⟩
  | some q =>
    let scaled := q * (10 : ℚ) ^ (18 : Nat)
    if scaled.den = 1 then .ok scaled.num
    else .error ⟨none, some "fractional component exceeds decimals", none⟩

/-- Externally observable actions of the operation layer: contract-handle
construction, a contract method call carrying the scaled amount, and a raw
wallet JSON-RPC request. -/
inductive Effect
  | constructContract (which : String)
  | call (method : String) (rawAmount : Int)
  | request (method : String) (param : String)
deriving Repr

/-- Address object of an injected TronWeb instance. -/
structure TronWebAddress where
  base58 : String
  hex : String
deriving Repr

/-- Full-node record of an injected TronWeb instance. -/
structure TronFullNode where
  host : String
deriving Repr

/-- Result of the injected instance's asynchronous contract lookup: which of
the expected methods the handle exposes (`methods` itself may be missing) and
the outcomes the chain would return for each call this repository makes. -/
structure TronContract where
  hasMethods : Bool
  hasMint : Bool
  hasBurn : Bool
  hasBalanceOf : Bool
  mintSendOutcome : Except TronErr String
  burnSendOutcome : Except TronErr String
  balanceOfOutcome : Except TronErr Nat

/-- Injected TronWeb instance as the source dereferences it with optional
chaining: the default address, the full node, and the `contract` method may
each be absent; when `contract` is present (`contractResult = some r`), `r`
is the outcome of awaiting `tronWebInstance.contract(abi, hex)`. -/
structure TronWebInstance where
  defaultAddress : Option TronWebAddress
  fullNode : Option TronFullNode
  contractResult : Option (Except TronErr TronContract)

/-- Check mirroring `tronWebInstance?.defaultAddress?.base58` truthiness for a
present instance. -/
def tronInstHasAddress (t : TronWebInstance) : Bool :=
  match t.defaultAddress with
  | none => false
  | some a => decide (a.base58 ≠ "")

/-- Check mirroring `tronWebInstance?.defaultAddress?.base58` truthiness. -/
def tronHasAddress : Option TronWebInstance → Bool
  | none => false
  | some t => tronInstHasAddress t

/-- Embedding of `getTrc20Contract` (lib/blockchain.ts lines 139-155): fails
when the instance's `contract` method is absent, re-throws a lookup failure,
and raises a descriptive error when the returned handle exposes no methods. -/
def getTrc20Contract (trc20AddressBase58 : String) (t : TronWebInstance) :
    List Effect × Except TronErr TronContract :=
  match t.contractResult with
  | none =>
    ([], .error (jsErrorObj "TronWeb instance or its \x27contract\x27 method is not available."))
  | some r =>
    match r with
    | .error e => ([Effect.constructContract "TRC20"], .error e)
    | .ok contract =>
      if contract.hasMethods then ([Effect.constructContract "TRC20"], .ok contract)
      else ([Effect.constructContract "TRC20"],
        .error (jsErrorObj ("Failed to initialize TRC20 contract instance at "
          ++ trc20AddressBase58 ++ ". Check ABI and address.")))

/-- Body of `mintTrc20Tokens` after the address guard (lines 188-218): obtain
the contract, convert the amount with the floating-point expression of line
193, require the `mint` method, send, and sanity-check the transaction id;
every failure is normalized by the catch block of lines 213-218. -/
def mintTrc20Body (trc20AddressBase58 : String) (t : TronWebInstance)
    (recipient amount : String) : List Effect × Except String String :=
  match getTrc20Contract trc20AddressBase58 t with
  | (tr, .error e) => (tr, .error (tronErrMsg e "TRC-20 minting failed"))
  | (tr, .ok contract) =>
    match toBaseUnitsTrc20 amount with
    | none =>
      (tr, .error (tronErrMsg (jsErrorObj "Cannot convert NaN to a BigInt") "TRC-20 minting failed"))
    | some rawAmount =>
      if contract.hasMint then
        match contract.mintSendOutcome with
        | .error e =>
          (tr ++ [Effect.call "mint" rawAmount], .error (tronErrMsg e "TRC-20 minting failed"))
        | .ok txID =>
          if txID.length < 60 then
            (tr ++ [Effect.call "mint" rawAmount],
             .error (tronErrMsg (jsErrorObj "Invalid or missing transaction ID received from TronLink.") "TRC-20 minting failed"))
          else (tr ++ [Effect.call "mint" rawAmount], .ok txID)
      else
        (tr, .error (tronErrMsg (jsErrorObj "Contract ABI doesn\x27t seem to have a \x27mint(address,uint256)\x27 function.") "TRC-20 minting failed"))

/-- Embedding of `mintTrc20Tokens` (lines 184-219): the guard of lines 185-187
rejects an absent instance or an instance without a resolved base58 default
address before anything else happens. -/
def mintTrc20Tokens (trc20AddressBase58 : String) (inst : Option TronWebInstance)
    (recipient amount : String) : List Effect × Except String String :=
  match inst with
  | none =>
    ([], .error "TronLink wallet instance with address is required for minting TRC-20 tokens.")
  | some t =>
    if tronInstHasAddress t then mintTrc20Body trc20AddressBase58 t recipient amount
    else ([], .error "TronLink wallet instance with address is required for minting TRC-20 tokens.")

/-- Body of `burnTrc20Tokens` after the address guard (lines 252-282): obtain
the contract, convert the amount with the floating-point expression of line
257, require the `burn` method, send, and sanity-check the transaction id. -/
def burnTrc20Body (trc20AddressBase58 : String) (t : TronWebInstance)
    (targetAddress amount : String) : List Effect × Except String String :=
  match getTrc20Contract trc20AddressBase58 t with
  | (tr, .error e) => (tr, .error (tronErrMsg e "TRC-20 burning failed"))
  | (tr, .ok contract) =>
    match toBaseUnitsTrc20 amount with
    | none =>
      (tr, .error (tronErrMsg (jsErrorObj "Cannot convert NaN to a BigInt") "TRC-20 burning failed"))
    | some rawAmount =>
      if contract.hasBurn then
        match contract.burnSendOutcome with
        | .error e =>
          (tr ++ [Effect.call "burn" rawAmount], .error (tronErrMsg e "TRC-20 burning failed"))
        | .ok txID =>
          if txID.length < 60 then
            (tr ++ [Effect.call "burn" rawAmount],
             .error (tronErrMsg (jsErrorObj "Invalid or missing transaction ID received from TronLink.") "TRC-20 burning failed"))
          else (tr ++ [Effect.call "burn" rawAmount], .ok txID)
      else
        (tr, .error (tronErrMsg (jsErrorObj "Contract ABI doesn\x27t seem to have a \x27burn(address,uint256)\x27 function. Check ABI/Contract.") "TRC-20 burning failed"))

/-- Embedding of `burnTrc20Tokens` (lines 248-283) with the address guard of
lines 249-251. -/
def burnTrc20Tokens (trc20AddressBase58 : String) (inst : Option TronWebInstance)
    (targetAddress amount : String) : List Effect × Except String String :=
  match inst with
  | none =>
    ([], .error "TronLink wallet instance with address is required for burning TRC-20 tokens.")
  | some t =>
    if tronInstHasAddress t then burnTrc20Body trc20AddressBase58 t targetAddress amount
    else ([], .error "TronLink wallet instance with address is required for burning TRC-20 tokens.")

/-- Connected EVM signer handle; only its presence matters to the source. -/
structure EthSigner where
  mkSigner ::
deriving Repr

/-- Constructed BEP-20 contract handle: whether it exposes `burnFrom` and the
outcomes the chain would return for the calls this repository makes. -/
structure Bep20Contract where
  hasBurnFrom : Bool
  mintOutcome : Except JsErr String
  burnFromOutcome : Except JsErr String

/-- Embedding of `mintBep20Tokens` (lines 162-179): null-signer guard, then
contract construction, `parseEther`, the `mint` call, and the catch block of
lines 174-178 selecting `shortMessage || message || default`. -/
def mintBep20Tokens (signer : Option EthSigner) (contract : Bep20Contract)
    (recipient amount : String) : List Effect × Except String String :=
  match signer with
  | none => ([], .error "A connected Signer (wallet) is required for minting BEP-20 tokens.")
  | some _ =>
    let tr := [Effect.constructContract "BEP20"]
    match parseEther amount with
    | .error e => (tr, .error (evmCatchMsg e "BEP-20 minting failed"))
    | .ok amountWei =>
      match contract.mintOutcome with
      | .error e => (tr ++ [Effect.call "mint" amountWei], .error (evmCatchMsg e "BEP-20 minting failed"))
      | .ok txHash => (tr ++ [Effect.call "mint" amountWei], .ok txHash)

/-- Embedding of `burnBep20Tokens` (lines 225-243): null-signer guard, contract
construction, `parseEther`, the `burnFrom` existence check of lines 232-234
(raised before any call), then the `burnFrom` call. -/
def burnBep20Tokens (signer : Option EthSigner) (contract : Bep20Contract)
    (targetAddress amount : String) : List Effect × Except String String :=
  match signer with
  | none => ([], .error "A connected Signer (wallet) is required for burning BEP-20 tokens.")
  | some _ =>
    let tr := [Effect.constructContract "BEP20"]
    match parseEther amount with
    | .error e => (tr, .error (evmCatchMsg e "BEP-20 burning failed"))
    | .ok amountWei =>
      if contract.hasBurnFrom then
        match contract.burnFromOutcome with
        | .error e => (tr ++ [Effect.call "burnFrom" amountWei], .error (evmCatchMsg e "BEP-20 burning failed"))
        | .ok txHash => (tr ++ [Effect.call "burnFrom" amountWei], .ok txHash)
      else
        (tr, .error (evmCatchMsg (⟨none, none, some "The \x27burnFrom(address,uint256)\x27 function is not available on this BEP20 contract instance. Check ABI/Contract."⟩ : JsErr) "BEP-20 burning failed"))

/-- Read-only provider reached through `provider.provider`, carrying the
outcome the chain would return for `balanceOf`. -/
structure ReadProvider where
  balanceOfOutcome : Except JsErr Nat

/-- Provider-or-signer argument of `getBep20Balance`; `readProvider` is the
value of its `.provider` property (an ethers provider yields itself, a signer
yields its provider or null). -/
structure EthersRunner where
  readProvider : Option ReadProvider

/-- Embedding of `getBep20Balance` (lines 287-306). The `new Contract`
construction of line 298 with the fixed valid ABI and a string address is
total in ethers v6 (address resolution is deferred), so it is not a failure
source; the `balanceOf` call is inside the try block and any failure yields
the sentinel. The result type allows an escaping exception so that the proved
absence of one is meaningful. -/
def getBep20Balance (provider : Option EthersRunner) (address : String) :
    Except String String :=
  match provider with
  | none => .ok "Error"
  | some p =>
    match p.readProvider with
    | none => .ok "Error"
    | some rp =>
      match rp.balanceOfOutcome with
      | .ok balanceWei => .ok (formatEther balanceWei)
      | .error _ => .ok "Error"

/-- Embedding of `getTrc20Balance` (lines 308-337): instance guard, contract
lookup, `balanceOf` existence check, the call, and the base-unit formatting of
lines 322-331; every failure inside the try block yields the sentinel. -/
def getTrc20Balance (trc20AddressBase58 : String) (inst : Option TronWebInstance)
    (address : String) : Except String String :=
  match inst with
  | none => .ok "Error"
  | some t =>
    match (getTrc20Contract trc20AddressBase58 t).2 with
    | .error _ => .ok "Error"
    | .ok contract =>
      if contract.hasBalanceOf then
        match contract.balanceOfOutcome with
        | .error _ => .ok "Error"
        | .ok rawBalance => .ok (formatTrc20Balance rawBalance)
      else .ok "Error"


/-- One of the two logical chains the UI supports. -/
inductive SupportedChain
  | BSC
  | TRON
deriving DecidableEq, Repr

/-- Modelled from the spec: the wallet-reported network identifier
(`ChainNetworkId`, spec section 3) produced by the `useBlockchain` hook, which
is not under src/: a numeric chain id for an EVM wallet or a symbolic string
identifier for a Tron wallet. -/
abbrev NetworkId := Sum Nat String

/-- Modelled from the spec: the chain identifier constants of lib/constants.ts
(`BSC_CHAIN_ID`, `ACTIVE_TRON_CHAIN_ID`), which is not under src/; the spec
calls them the configured EVM chain id and the configured Tron chain
identifier, so they are carried as an explicit configuration value. -/
structure ChainConfig where
  bscChainId : Nat
  activeTronChainId : String
deriving DecidableEq, Repr

/-- Outcome the wallet-connect effect passes to `onConnected`: the resolved
chain, the wrong-network flag, and whether the unrecognized-chain warning was
logged. -/
structure Resolution where
  chain : SupportedChain
  wrongNetwork : Bool
  warned : Bool
deriving DecidableEq, Repr

/-- Embedding of the chain-identity resolution in WalletConnectButton's
useEffect (src/unnamed/part_000 lines 47-64): a wallet-reported id equal to
the configured EVM id resolves to BSC, one equal to the configured Tron id
resolves to TRON, and anything else falls back to the selected chain with
wrongNetwork set and a warning logged. -/
def resolveChain (cfg : ChainConfig) (chainId : NetworkId)
    (selectedChain : SupportedChain) : Resolution :=
  if chainId = Sum.inl cfg.bscChainId then
    ⟨SupportedChain.BSC, decide (selectedChain ≠ SupportedChain.BSC), false⟩
  else if chainId = Sum.inr cfg.activeTronChainId then
    ⟨SupportedChain.TRON, decide (selectedChain ≠ SupportedChain.TRON), false⟩
  else
    ⟨selectedChain, true, true⟩

/-- Embedding of the `(chain, wrongNetwork)` pair that `handleConnect`
(src/unnamed/part_000 line 104) passes to `onConnected` after a successful
`eth_requestAccounts`: always the selected chain with `wrongNetwork = false`,
without consulting any wallet-reported network id. -/
def handleConnectReport (selectedChain : SupportedChain) : SupportedChain × Bool :=
  (selectedChain, false)

/-- Bool test of whether `sub` occurs as a prefix of `l`. -/
def startsWithChars : List Char → List Char → Bool
  | _, [] => true
  | [], _ :: _ => false
  | c :: cs, d :: ds => c = d && startsWithChars cs ds

/-- Bool test of whether `sub` occurs contiguously inside `l`. -/
def containsSub (sub : List Char) : List Char → Bool
  | [] => startsWithChars [] sub
  | c :: cs => startsWithChars (c :: cs) sub || containsSub sub cs

/-- JavaScript `s.includes(sub)`. -/
def jsIncludes (s sub : String) : Bool := containsSub sub.toList s.toList

/-- Known mainnet full-node hosts listed at lib/blockchain.ts line 358. -/
def mainnetHosts : List String := ["api.trongrid.io", "api.tronstack.io"]

/-- Known Shasta full-node hosts listed at lib/blockchain.ts line 359. -/
def shastaHosts : List String := ["api.shasta.trongrid.io"]

/-- Embedding of `checkTronNetwork` (lib/blockchain.ts lines 350-369): false
when the instance, its full node, or a non-empty host is missing; otherwise
the lower-cased host is matched against the known host list of the configured
target network, and an unrecognized target yields false after a warning. -/
def checkTronNetwork (inst : Option TronWebInstance) (activeTronChainId : String) : Bool :=
  match inst with
  | none => false
  | some t =>
    match t.fullNode with
    | none => false
    | some fn =>
      if fn.host = "" then false
      else
        let nodeHost := fn.host.toLower
        if activeTronChainId = "TRON_MAINNET" then
          mainnetHosts.any (fun host => jsIncludes nodeHost host)
        else if activeTronChainId = "TRON_SHASTA" then
          shastaHosts.any (fun host => jsIncludes nodeHost host)
        else false

/-- Provider argument of `requestNetworkSwitch`; `hasSend` mirrors the
`provider?.send` capability probe of line 372. -/
structure SwitchProvider where
  hasSend : Bool
deriving Repr

/-- Wallet responses for the two requests `requestNetworkSwitch` can issue. -/
structure SwitchEnv where
  switchOutcome : Except JsErr Unit
  addOutcome : Except JsErr Unit

/-- JavaScript `BigInt` on a decimal string: empty or whitespace gives zero,
decimal digits give their value, anything else throws (modelled by `none`);
the hexadecimal and exponent literal forms are not used by this repository
and not modelled. -/
def jsBigIntOfString (s : String) : Option Int :=
  let cs := s.toList
  if cs.isEmpty then some 0
  else
    match cs with
    | '-' :: rest => (digitsVal rest 0).map (fun n => -(n : Int))
    | _ => (digitsVal cs 0).map (fun n => (n : Int))

/-- JavaScript `BigInt(chainId)` for the number-or-string chain id argument. -/
def jsBigIntOfNetworkId : NetworkId → Option Int
  | Sum.inl n => some (n : Int)
  | Sum.inr s => jsBigIntOfString s

/-- Lower-case hexadecimal rendering of a BigInt, as `toString(16)`. -/
def bigIntToHex (z : Int) : String :=
  if z < 0 then "-" ++ String.mk (Nat.toDigits 16 z.natAbs)
  else String.mk (Nat.toDigits 16 z.natAbs)

/-- String interpolation of the number-or-string chain id. -/
def networkIdToString : NetworkId → String
  | Sum.inl n => toString n
  | Sum.inr s => s

/-- Embedding of `requestNetworkSwitch` (lib/blockchain.ts lines 371-415):
probe the provider's `send`, issue `wallet_switchEthereumChain` with the
hex-encoded chain id, and on the chain-unknown code 4902 either issue a single
`wallet_addEthereumChain` when the target is the configured BSC chain id or
fail with the missing-configuration error wrapped by the inner catch of lines
406-409; every other switch failure is wrapped by the outer catch of line 412.
The add-chain parameter record (name, currency, RPC URL, explorer) is
configuration data that does not affect control flow and is not recorded. -/
def requestNetworkSwitch (cfg : ChainConfig) (provider : Option SwitchProvider)
    (chainId : NetworkId) (env : SwitchEnv) : List Effect × Except String Unit :=
  match provider with
  | none =>
    ([], .error "Wallet provider is not available or does not support \x27send\x27 method for switching network.")
  | some p =>
    if p.hasSend then
      match jsBigIntOfNetworkId chainId with
      | none => ([], .error "Cannot convert chainId to a BigInt")
      | some z =>
        let hexChainId := "0x" ++ bigIntToHex z
        match env.switchOutcome with
        | .ok _ => ([Effect.request "wallet_switchEthereumChain" hexChainId], .ok ())
        | .error e =>
          if e.code = some 4902 then
            if chainId = Sum.inl cfg.bscChainId then
              match env.addOutcome with
              | .ok _ =>
                ([Effect.request "wallet_switchEthereumChain" hexChainId,
                  Effect.request "wallet_addEthereumChain" hexChainId], .ok ())
              | .error ae =>
                ([Effect.request "wallet_switchEthereumChain" hexChainId,
                  Effect.request "wallet_addEthereumChain" hexChainId],
                 .error ("Failed to add network: " ++ jsOrDefault ae.message "Unknown error"))
            else
              ([Effect.request "wallet_switchEthereumChain" hexChainId],
               .error ("Failed to add network: Configuration to add chainId "
                 ++ networkIdToString chainId ++ " is missing."))
          else
            ([Effect.request "wallet_switchEthereumChain" hexChainId],
             .error ("Failed to switch network: " ++ jsOrDefault e.message "User rejected or unknown error"))
    else
      ([], .error "Wallet provider is not available or does not support \x27send\x27 method for switching network.")

/-- Environment variables read at module load (lib/blockchain.ts lines 37-41);
`none` models an unset variable. -/
structure EnvVars where
  bscRpcUrl : Option String
  bep20Address : Option String
  tronRpcUrl : Option String
  trc20AddressBase58 : Option String
  trongridApiKey : Option String
deriving Repr

/-- Configuration produced by a successful module initialization. -/
structure AppConfig where
  bscRpcUrl : String
  bep20Address : String
  tronRpcUrl : String
  trc20AddressBase58 : String
  trc20AddressHex : String
  trongridApiKey : Option String
deriving DecidableEq, Repr

/-- Truthiness of an optional environment string (unset or empty is falsy). -/
def optTruthy : Option String → Bool
  | none => false
  | some s => decide (s ≠ "")

/-- Embedding of the module initialization of lib/blockchain.ts lines 37-57:
the EVM RPC URL takes a hardcoded default when unset (line 37), the four
missing-variable guards of lines 43-46 run in order, and the base58-to-hex
conversion of the TRC-20 address (performed by the external
`TronWeb.address.toHex`, passed here as `toHex`, with `none` modelling a
thrown conversion error) fails fast with the descriptive format error of line
56. -/
def initBlockchainConfig (env : EnvVars) (toHex : String → Option String) :
    Except String AppConfig :=
  let bscRpc := jsOrDefault env.bscRpcUrl "bsc-testnet-rpc.publicnode.com"
  if bscRpc = "" then
    .error "Missing environment variable: NEXT_PUBLIC_BSC_RPC_URL"
  else if optTruthy env.bep20Address = false then
    .error "Missing environment variable: NEXT_PUBLIC_BEP20_CONTRACT_ADDRESS"
  else if optTruthy env.tronRpcUrl = false then
    .error "Missing environment variable: NEXT_PUBLIC_TRON_RPC_URL"
  else if optTruthy env.trc20AddressBase58 = false then
    .error "Missing environment variable: NEXT_PUBLIC_TRC20_CONTRACT_ADDRESS"
  else
    let b58 := (env.trc20AddressBase58).getD ""
    match toHex b58 with
    | some hex =>
      .ok ⟨bscRpc, (env.bep20Address).getD "", (env.tronRpcUrl).getD "", b58, hex, env.trongridApiKey⟩
    | none => .error ("Invalid NEXT_PUBLIC_TRC20_CONTRACT_ADDRESS format: " ++ b58)


lemma jsOrDefault_bscDefault_ne_empty (o : Option String) :
    jsOrDefault o "bsc-testnet-rpc.publicnode.com" ≠ "" := by
  match o with
  | none => decide
  | some s =>
    simp only [jsOrDefault]
    split
    · decide
    · assumption

/-- C1: the round-trip law fails on the code. The Tron mint path converts
amounts with binary64 floating-point arithmetic, so for the amount
"9007199254.740993" (within the 6 configured fractional digits) the base-unit
integer is 9007199254740994 and the balance formatting returns
"9007199254.740994", not the original value; the spec's own example
"123456789.123456" does round-trip. -/
theorem c1_tron_roundtrip_drift :
    toBaseUnitsTrc20 "123456789.123456" = some 123456789123456 ∧
    formatTrc20Balance 123456789123456 = "123456789.123456" ∧
    (toBaseUnitsTrc20 "9007199254.740993").map (fun i => formatTrc20Balance i.toNat)
      = some "9007199254.740994" ∧
    (toBaseUnitsTrc20 "9007199254.740993").map (fun i => formatTrc20Balance i.toNat)
      ≠ some "9007199254.740993" := by
  have h : (toBaseUnitsTrc20 "9007199254.740993").map (fun i => formatTrc20Balance i.toNat)
      = some "9007199254.740994" := by with_unfolding_all rfl
  refine ⟨by with_unfolding_all rfl, by with_unfolding_all rfl, h, ?_⟩
  rw [h]
  decide

/-- C2: the mint/burn conversion is not exact integer arithmetic. For the
amount "18014398509.481985" the code's
`BigInt(Math.round(parseFloat(amount) * 10 ** 6))` yields 18014398509481984
while the mathematically exact scaled value is 18014398509481985. -/
theorem c2_tron_conversion_inexact :
    toBaseUnitsTrc20 "18014398509.481985" = some 18014398509481984 ∧
    specExactBaseUnits "18014398509.481985" = some 18014398509481985 ∧
    toBaseUnitsTrc20 "18014398509.481985" ≠ specExactBaseUnits "18014398509.481985" := by
  have h1 : toBaseUnitsTrc20 "18014398509.481985" = some 18014398509481984 := by
    with_unfolding_all rfl
  have h2 : specExactBaseUnits "18014398509.481985" = some 18014398509481985 := by
    with_unfolding_all rfl
  refine ⟨h1, h2, ?_⟩
  rw [h1, h2]
  decide

/-- C3 counterexample: with the same wallet-reported chain id (an unrecognized
id 0), the chain passed to onConnected differs with the user selection, so the
resolved chain is not derived purely from the wallet-reported id; moreover the
direct connect handler always reports the selected chain with
wrongNetwork = false. -/
theorem c3_counterexample_chain_from_selection :
    (resolveChain ⟨56, "TRON_MAINNET"⟩ (Sum.inl 0) SupportedChain.BSC).chain
      = SupportedChain.BSC ∧
    (resolveChain ⟨56, "TRON_MAINNET"⟩ (Sum.inl 0) SupportedChain.TRON).chain
      = SupportedChain.TRON ∧
    handleConnectReport SupportedChain.TRON = (SupportedChain.TRON, false) := by
  refine ⟨rfl, rfl, rfl⟩

/-- C3 amended: for a recognized wallet-reported id the resolved chain is
independent of the selection and the selection only determines wrongNetwork;
for an unrecognized id the useEffect falls back to the selected chain with
wrongNetwork = true (and a warning); and the direct connect handler reports
the selected chain with wrongNetwork = false without consulting the id. -/
theorem c3_chain_resolution_amended :
    ∀ (cfg : ChainConfig) (chainId : NetworkId) (sel sel2 : SupportedChain),
      ((chainId = Sum.inl cfg.bscChainId ∨ chainId = Sum.inr cfg.activeTronChainId) →
        (resolveChain cfg chainId sel).chain = (resolveChain cfg chainId sel2).chain ∧
        (resolveChain cfg chainId sel).wrongNetwork
          = decide (sel ≠ (resolveChain cfg chainId sel).chain)) ∧
      (chainId ≠ Sum.inl cfg.bscChainId → chainId ≠ Sum.inr cfg.activeTronChainId →
        resolveChain cfg chainId sel = ⟨sel, true, true⟩) ∧
      handleConnectReport sel = (sel, false) := by
  intro cfg chainId sel sel2
  refine ⟨?_, ?_, rfl⟩
  · rintro (h | h) <;> subst h <;> simp [resolveChain]
  · intro h1 h2
    simp [resolveChain, h1, h2]

theorem c3_chain_resolution_amended_witness :
    resolveChain ⟨56, "TRON_MAINNET"⟩ (Sum.inl 0) SupportedChain.TRON
      = ⟨SupportedChain.TRON, true, true⟩ ∧
    (resolveChain ⟨56, "TRON_MAINNET"⟩ (Sum.inl 56) SupportedChain.TRON).chain
      = (resolveChain ⟨56, "TRON_MAINNET"⟩ (Sum.inl 56) SupportedChain.BSC).chain :=
  ⟨(c3_chain_resolution_amended ⟨56, "TRON_MAINNET"⟩ (Sum.inl 0) SupportedChain.TRON
      SupportedChain.TRON).2.1 (by decide) (by decide),
   ((c3_chain_resolution_amended ⟨56, "TRON_MAINNET"⟩ (Sum.inl 56) SupportedChain.TRON
      SupportedChain.BSC).1 (Or.inl rfl)).1⟩

/-- C4: the chain identity resolver maps the configured EVM id to BSC with
wrongNetwork exactly when the selection is not BSC, the configured Tron id
to TRON with wrongNetwork exactly when the selection is not TRON, and any
other id to the selected chain with wrongNetwork = true and the warning
logged; it is a total function, so it never throws. -/
theorem c4_chain_identity_resolver :
    ∀ (cfg : ChainConfig) (chainId : NetworkId) (sel : SupportedChain),
      (chainId = Sum.inl cfg.bscChainId →
        resolveChain cfg chainId sel
          = ⟨SupportedChain.BSC, decide (sel ≠ SupportedChain.BSC), false⟩) ∧
      (chainId = Sum.inr cfg.activeTronChainId →
        resolveChain cfg chainId sel
          = ⟨SupportedChain.TRON, decide (sel ≠ SupportedChain.TRON), false⟩) ∧
      (chainId ≠ Sum.inl cfg.bscChainId → chainId ≠ Sum.inr cfg.activeTronChainId →
        resolveChain cfg chainId sel = ⟨sel, true, true⟩) := by
  intro cfg chainId sel
  refine ⟨?_, ?_, ?_⟩
  · intro h; subst h; simp [resolveChain]
  · intro h; subst h; simp [resolveChain]
  · intro h1 h2; simp [resolveChain, h1, h2]

theorem c4_chain_identity_resolver_witness :
    resolveChain ⟨56, "TRON_MAINNET"⟩ (Sum.inl 56) SupportedChain.TRON
      = ⟨SupportedChain.BSC, true, false⟩ ∧
    resolveChain ⟨56, "TRON_MAINNET"⟩ (Sum.inr "TRON_MAINNET") SupportedChain.TRON
      = ⟨SupportedChain.TRON, false, false⟩ ∧
    resolveChain ⟨56, "TRON_MAINNET"⟩ (Sum.inl 0) SupportedChain.BSC
      = ⟨SupportedChain.BSC, true, true⟩ :=
  ⟨(c4_chain_identity_resolver ⟨56, "TRON_MAINNET"⟩ (Sum.inl 56) SupportedChain.TRON).1 rfl,
   (c4_chain_identity_resolver ⟨56, "TRON_MAINNET"⟩ (Sum.inr "TRON_MAINNET") SupportedChain.TRON).2.1 rfl,
   (c4_chain_identity_resolver ⟨56, "TRON_MAINNET"⟩ (Sum.inl 0) SupportedChain.BSC).2.2
     (by decide) (by decide)⟩

/-- C5: a mint invocation with an absent chain handle (null signer for EVM, or
a Tron instance without a resolved base58 default address) fails with the
descriptive error and an empty effect trace, so no contract handle is
constructed and no contract call is attempted. -/
theorem c5_mint_fails_fast_absent_handle :
    ∀ (contract : Bep20Contract) (recipient amount : String)
      (trc20AddressBase58 recipient2 amount2 : String) (inst : Option TronWebInstance),
      mintBep20Tokens none contract recipient amount
        = ([], .error "A connected Signer (wallet) is required for minting BEP-20 tokens.") ∧
      (tronHasAddress inst = false →
        mintTrc20Tokens trc20AddressBase58 inst recipient2 amount2
          = ([], .error "TronLink wallet instance with address is required for minting TRC-20 tokens.")) := by
  intro contract recipient amount trc20AddressBase58 recipient2 amount2 inst
  refine ⟨rfl, ?_⟩
  intro h
  match inst with
  | none => rfl
  | some t =>
    simp only [tronHasAddress] at h
    simp [mintTrc20Tokens, h]

theorem c5_mint_fails_fast_absent_handle_witness :
    mintBep20Tokens none ⟨true, .ok "", .ok ""⟩ "0xRecipient" "1.5"
      = ([], .error "A connected Signer (wallet) is required for minting BEP-20 tokens.") ∧
    mintTrc20Tokens "TTestAddr" (some ⟨some ⟨"", "41"⟩, none, none⟩) "TRecipient" "1.5"
      = ([], .error "TronLink wallet instance with address is required for minting TRC-20 tokens.") :=
  ⟨(c5_mint_fails_fast_absent_handle ⟨true, .ok "", .ok ""⟩ "0xRecipient" "1.5"
      "TTestAddr" "TRecipient" "1.5" none).1,
   (c5_mint_fails_fast_absent_handle ⟨true, .ok "", .ok ""⟩ "0xRecipient" "1.5"
      "TTestAddr" "TRecipient" "1.5" (some ⟨some ⟨"", "41"⟩, none, none⟩)).2 (by decide)⟩

/-- C6: a burn invocation against a contract handle lacking the expected
method (`burnFrom` for EVM, `burn` for Tron) fails with the descriptive
configuration error naming the missing function, and the effect trace holds
only the contract construction: no transaction is submitted. -/
theorem c6_burn_missing_method_config_error :
    ∀ (s : EthSigner) (contract : Bep20Contract) (target amount : String) (wei : Int)
      (trc20AddressBase58 target2 amount2 : String) (t : TronWebInstance)
      (tcon : TronContract) (raw : Int),
      (parseEther amount = .ok wei → contract.hasBurnFrom = false →
        burnBep20Tokens (some s) contract target amount
          = ([Effect.constructContract "BEP20"],
             .error "The \x27burnFrom(address,uint256)\x27 function is not available on this BEP20 contract instance. Check ABI/Contract.")) ∧
      (tronInstHasAddress t = true → t.contractResult = some (.ok tcon) →
        tcon.hasMethods = true → toBaseUnitsTrc20 amount2 = some raw → tcon.hasBurn = false →
        burnTrc20Tokens trc20AddressBase58 (some t) target2 amount2
          = ([Effect.constructContract "TRC20"],
             .error "Contract ABI doesn\x27t seem to have a \x27burn(address,uint256)\x27 function. Check ABI/Contract.")) := by
  intro s contract target amount wei trc20AddressBase58 target2 amount2 t tcon raw
  constructor
  · intro h1 h2
    simp only [burnBep20Tokens, h1, h2]
    rfl
  · intro h1 h2 h3 h4 h5
    simp only [burnTrc20Tokens, h1, if_true]
    simp only [burnTrc20Body, getTrc20Contract, h2, h3, if_true, h4, h5]
    rfl

theorem c6_burn_missing_method_config_error_witness :
    burnBep20Tokens (some EthSigner.mkSigner) ⟨false, .ok "", .ok ""⟩ "0xTarget" "1.5"
      = ([Effect.constructContract "BEP20"],
         .error "The \x27burnFrom(address,uint256)\x27 function is not available on this BEP20 contract instance. Check ABI/Contract.") ∧
    burnTrc20Tokens "TTestAddr"
        (some ⟨some ⟨"TOwner", "41"⟩, none,
          some (.ok ⟨true, true, false, true, .ok "", .ok "", .ok 0⟩)⟩)
        "TTarget" "1.5"
      = ([Effect.constructContract "TRC20"],
         .error "Contract ABI doesn\x27t seem to have a \x27burn(address,uint256)\x27 function. Check ABI/Contract.") :=
  ⟨(c6_burn_missing_method_config_error EthSigner.mkSigner ⟨false, .ok "", .ok ""⟩
      "0xTarget" "1.5" 1500000000000000000 "TTestAddr" "TTarget" "1.5"
      ⟨some ⟨"TOwner", "41"⟩, none, some (.ok ⟨true, true, false, true, .ok "", .ok "", .ok 0⟩)⟩
      ⟨true, true, false, true, .ok "", .ok "", .ok 0⟩ 1500000).1
      (by with_unfolding_all rfl) rfl,
   (c6_burn_missing_method_config_error EthSigner.mkSigner ⟨false, .ok "", .ok ""⟩
      "0xTarget" "1.5" 1500000000000000000 "TTestAddr" "TTarget" "1.5"
      ⟨some ⟨"TOwner", "41"⟩, none, some (.ok ⟨true, true, false, true, .ok "", .ok "", .ok 0⟩)⟩
      ⟨true, true, false, true, .ok "", .ok "", .ok 0⟩ 1500000).2
      (by with_unfolding_all rfl) rfl rfl (by with_unfolding_all rfl) rfl⟩

/-- C7: both balance queries always return a value (`Except.ok`), never an
escaping exception, and every failure source (absent handle, failed Tron
contract lookup, missing balanceOf method, failing raw-balance call) yields
the sentinel string "Error". -/
theorem c7_balance_sentinel_never_throws :
    ∀ (provider : Option EthersRunner) (trc20AddressBase58 address : String)
      (inst : Option TronWebInstance),
      (∃ s, getBep20Balance provider address = .ok s) ∧
      (∃ s, getTrc20Balance trc20AddressBase58 inst address = .ok s) ∧
      (provider = none → getBep20Balance provider address = .ok "Error") ∧
      (∀ p, provider = some p → p.readProvider = none →
        getBep20Balance provider address = .ok "Error") ∧
      (∀ p rp e, provider = some p → p.readProvider = some rp →
        rp.balanceOfOutcome = .error e → getBep20Balance provider address = .ok "Error") ∧
      (inst = none → getTrc20Balance trc20AddressBase58 inst address = .ok "Error") ∧
      (∀ t e, inst = some t → (getTrc20Contract trc20AddressBase58 t).2 = .error e →
        getTrc20Balance trc20AddressBase58 inst address = .ok "Error") ∧
      (∀ t c, inst = some t → (getTrc20Contract trc20AddressBase58 t).2 = .ok c →
        c.hasBalanceOf = false → getTrc20Balance trc20AddressBase58 inst address = .ok "Error") ∧
      (∀ t c e, inst = some t → (getTrc20Contract trc20AddressBase58 t).2 = .ok c →
        c.balanceOfOutcome = .error e →
        getTrc20Balance trc20AddressBase58 inst address = .ok "Error") := by
  intro provider trc20AddressBase58 address inst
  refine ⟨?_, ?_, ?_, ?_, ?_, ?_, ?_, ?_, ?_⟩
  · match provider with
    | none => exact ⟨"Error", rfl⟩
    | some p =>
      match hp : p.readProvider with
      | none => exact ⟨"Error", by simp [getBep20Balance, hp]⟩
      | some rp =>
        match ho : rp.balanceOfOutcome with
        | .ok w => exact ⟨formatEther w, by simp [getBep20Balance, hp, ho]⟩
        | .error e => exact ⟨"Error", by simp [getBep20Balance, hp, ho]⟩
  · match inst with
    | none => exact ⟨"Error", rfl⟩
    | some t =>
      match hc : (getTrc20Contract trc20AddressBase58 t).2 with
      | .error e => exact ⟨"Error", by simp [getTrc20Balance, hc]⟩
      | .ok c =>
        match hb : c.hasBalanceOf with
        | false => exact ⟨"Error", by simp [getTrc20Balance, hc, hb]⟩
        | true =>
          match ho : c.balanceOfOutcome with
          | .ok raw => exact ⟨formatTrc20Balance raw, by simp [getTrc20Balance, hc, hb, ho]⟩
          | .error e => exact ⟨"Error", by simp [getTrc20Balance, hc, hb, ho]⟩
  · intro h; subst h; rfl
  · intro p hp hr; subst hp; simp [getBep20Balance, hr]
  · intro p rp e hp hr ho; subst hp; simp [getBep20Balance, hr, ho]
  · intro h; subst h; rfl
  · intro t e hi hc; subst hi; simp [getTrc20Balance, hc]
  · intro t c hi hc hb; subst hi; simp [getTrc20Balance, hc, hb]
  · intro t c e hi hc ho; subst hi
    match hb : c.hasBalanceOf with
    | false => simp [getTrc20Balance, hc, hb]
    | true => simp [getTrc20Balance, hc, hb, ho]

theorem c7_balance_sentinel_never_throws_witness :
    getBep20Balance (some ⟨some ⟨.error ⟨none, none, some "provider blew up"⟩⟩⟩) "0xHolder"
      = .ok "Error" ∧
    getTrc20Balance "TTestAddr"
        (some ⟨some ⟨"TOwner", "41"⟩, none,
          some (.ok ⟨true, true, true, true, .ok "", .ok "", .error (.str "node down")⟩)⟩)
        "THolder"
      = .ok "Error" :=
  ⟨(c7_balance_sentinel_never_throws
      (some ⟨some ⟨.error ⟨none, none, some "provider blew up"⟩⟩⟩) "TTestAddr" "0xHolder"
      none).2.2.2.2.1
      ⟨some ⟨.error ⟨none, none, some "provider blew up"⟩⟩⟩
      ⟨.error ⟨none, none, some "provider blew up"⟩⟩
      ⟨none, none, some "provider blew up"⟩ rfl rfl rfl,
   (c7_balance_sentinel_never_throws none "TTestAddr" "THolder"
      (some ⟨some ⟨"TOwner", "41"⟩, none,
        some (.ok ⟨true, true, true, true, .ok "", .ok "", .error (.str "node down")⟩)⟩)).2.2.2.2.2.2.2.2
      ⟨some ⟨"TOwner", "41"⟩, none,
        some (.ok ⟨true, true, true, true, .ok "", .ok "", .error (.str "node down")⟩)⟩
      ⟨true, true, true, true, .ok "", .ok "", .error (.str "node down")⟩
      (.str "node down") rfl rfl rfl⟩

/-- C8: when the switch request fails with the chain-unknown code 4902 and the
target chain id is not the configured BSC chain id, the operation fails with
the descriptive missing-configuration error and the trace holds only the
single switch request (no add request, no retry); any other switch failure is
surfaced as a descriptive switch error, likewise without further requests. -/
theorem c8_network_switch_failures :
    ∀ (cfg : ChainConfig) (p : SwitchProvider) (chainId : NetworkId) (env : SwitchEnv)
      (e : JsErr) (z : Int),
      p.hasSend = true →
      jsBigIntOfNetworkId chainId = some z →
      env.switchOutcome = .error e →
      ((e.code = some 4902 → chainId ≠ Sum.inl cfg.bscChainId →
        requestNetworkSwitch cfg (some p) chainId env
          = ([Effect.request "wallet_switchEthereumChain" ("0x" ++ bigIntToHex z)],
             .error ("Failed to add network: Configuration to add chainId "
               ++ networkIdToString chainId ++ " is missing."))) ∧
       (e.code ≠ some 4902 →
        requestNetworkSwitch cfg (some p) chainId env
          = ([Effect.request "wallet_switchEthereumChain" ("0x" ++ bigIntToHex z)],
             .error ("Failed to switch network: "
               ++ jsOrDefault e.message "User rejected or unknown error")))) := by
  intro cfg p chainId env e z h1 h2 h3
  constructor
  · intro h4 h5
    simp [requestNetworkSwitch, h1, h2, h3, h4, h5]
  · intro h4
    simp [requestNetworkSwitch, h1, h2, h3, h4]

theorem c8_network_switch_failures_witness :
    requestNetworkSwitch ⟨56, "TRON_MAINNET"⟩ (some ⟨true⟩) (Sum.inl 97)
        ⟨.error ⟨some 4902, none, none⟩, .ok ()⟩
      = ([Effect.request "wallet_switchEthereumChain" "0x61"],
         .error "Failed to add network: Configuration to add chainId 97 is missing.") ∧
    requestNetworkSwitch ⟨56, "TRON_MAINNET"⟩ (some ⟨true⟩) (Sum.inl 56)
        ⟨.error ⟨some 4001, none, some "User rejected the request."⟩, .ok ()⟩
      = ([Effect.request "wallet_switchEthereumChain" "0x38"],
         .error "Failed to switch network: User rejected the request.") := by
  constructor
  · have h := (c8_network_switch_failures ⟨56, "TRON_MAINNET"⟩ ⟨true⟩ (Sum.inl 97)
      ⟨.error ⟨some 4902, none, none⟩, .ok ()⟩ ⟨some 4902, none, none⟩ 97
      rfl rfl rfl).1 rfl (by decide)
    exact h
  · have h := (c8_network_switch_failures ⟨56, "TRON_MAINNET"⟩ ⟨true⟩ (Sum.inl 56)
      ⟨.error ⟨some 4001, none, some "User rejected the request."⟩, .ok ()⟩
      ⟨some 4001, none, some "User rejected the request."⟩ 56
      rfl rfl rfl).2 (by decide)
    exact h

/-- C9 counterexample: with the EVM RPC URL environment variable unset and all
other inputs present and well-formed, module initialization succeeds using the
hardcoded default RPC URL instead of aborting, contradicting the claim that
absence of any required configuration value aborts initialization. -/
theorem c9_counterexample_bsc_rpc_default :
    initBlockchainConfig
        ⟨none, some "0xBep20", some "https://api.shasta.trongrid.io", some "TTestAddr", none⟩
        (fun s => some ("41" ++ s))
      = .ok ⟨"bsc-testnet-rpc.publicnode.com", "0xBep20", "https://api.shasta.trongrid.io",
             "TTestAddr", "41TTestAddr", none⟩ := by
  rfl

/-- C9 amended: absence of the EVM token contract address, the Tron RPC URL,
or the Tron token contract address aborts initialization with the descriptive
missing-variable error, and a malformed Tron base58 address (hex conversion
failure) aborts with the descriptive format error; the EVM RPC URL, however,
falls back to a hardcoded default when absent, so its absence alone does not
abort. -/
theorem c9_init_abort_amended :
    ∀ (env : EnvVars) (toHex : String → Option String),
      (optTruthy env.bep20Address = false →
        initBlockchainConfig env toHex
          = .error "Missing environment variable: NEXT_PUBLIC_BEP20_CONTRACT_ADDRESS") ∧
      (optTruthy env.bep20Address = true → optTruthy env.tronRpcUrl = false →
        initBlockchainConfig env toHex
          = .error "Missing environment variable: NEXT_PUBLIC_TRON_RPC_URL") ∧
      (optTruthy env.bep20Address = true → optTruthy env.tronRpcUrl = true →
        optTruthy env.trc20AddressBase58 = false →
        initBlockchainConfig env toHex
          = .error "Missing environment variable: NEXT_PUBLIC_TRC20_CONTRACT_ADDRESS") ∧
      (optTruthy env.bep20Address = true → optTruthy env.tronRpcUrl = true →
        optTruthy env.trc20AddressBase58 = true →
        toHex ((env.trc20AddressBase58).getD "") = none →
        initBlockchainConfig env toHex
          = .error ("Invalid NEXT_PUBLIC_TRC20_CONTRACT_ADDRESS format: "
              ++ (env.trc20AddressBase58).getD "")) ∧
      (∀ hex, optTruthy env.bep20Address = true → optTruthy env.tronRpcUrl = true →
        optTruthy env.trc20AddressBase58 = true →
        toHex ((env.trc20AddressBase58).getD "") = some hex →
        initBlockchainConfig
            ⟨none, env.bep20Address, env.tronRpcUrl, env.trc20AddressBase58, env.trongridApiKey⟩
            toHex
          = .ok ⟨"bsc-testnet-rpc.publicnode.com", (env.bep20Address).getD "",
                 (env.tronRpcUrl).getD "", (env.trc20AddressBase58).getD "", hex,
                 env.trongridApiKey⟩) := by
  intro env toHex
  have hb := jsOrDefault_bscDefault_ne_empty env.bscRpcUrl
  refine ⟨?_, ?_, ?_, ?_, ?_⟩
  · intro h1
    simp [initBlockchainConfig, hb, h1]
  · intro h1 h2
    simp [initBlockchainConfig, hb, h1, h2]
  · intro h1 h2 h3
    simp [initBlockchainConfig, hb, h1, h2, h3]
  · intro h1 h2 h3 h4
    simp [initBlockchainConfig, hb, h1, h2, h3, h4]
  · intro hex h1 h2 h3 h4
    simp [initBlockchainConfig, jsOrDefault, h1, h2, h3, h4]

theorem c9_init_abort_amended_witness :
    initBlockchainConfig ⟨some "https://bsc-rpc", some "0xBep20", none, some "TTestAddr", none⟩
        (fun s => some ("41" ++ s))
      = .error "Missing environment variable: NEXT_PUBLIC_TRON_RPC_URL" ∧
    initBlockchainConfig
        ⟨some "https://bsc-rpc", some "0xBep20", some "https://api.shasta.trongrid.io",
         some "badAddress", none⟩
        (fun _ => none)
      = .error "Invalid NEXT_PUBLIC_TRC20_CONTRACT_ADDRESS format: badAddress" ∧
    initBlockchainConfig
        ⟨none, some "0xBep20", some "https://api.shasta.trongrid.io", some "TTestAddr", none⟩
        (fun s => some ("41" ++ s))
      = .ok ⟨"bsc-testnet-rpc.publicnode.com", "0xBep20", "https://api.shasta.trongrid.io",
             "TTestAddr", "41TTestAddr", none⟩ :=
  ⟨((c9_init_abort_amended
      ⟨some "https://bsc-rpc", some "0xBep20", none, some "TTestAddr", none⟩
      (fun s => some ("41" ++ s))).2.1 (by decide) (by decide)),
   ((c9_init_abort_amended
      ⟨some "https://bsc-rpc", some "0xBep20", some "https://api.shasta.trongrid.io",
        some "badAddress", none⟩
      (fun _ => none)).2.2.2.1 (by decide) (by decide) (by decide) rfl),
   ((c9_init_abort_amended
      ⟨some "ignored", some "0xBep20", some "https://api.shasta.trongrid.io",
        some "TTestAddr", none⟩
      (fun s => some ("41" ++ s))).2.2.2.2 "41TTestAddr"
      (by decide) (by decide) (by decide) rfl)⟩

/-- C10: `checkTronNetwork` is total (never throws) and fail-closed: it
returns false when the instance, its full node, or a non-empty host string is
missing, and false when the configured target identifier is neither
TRON_MAINNET nor TRON_SHASTA; and it returns true only when the lower-cased
full-node host contains one of the known host names of the configured target
network. -/
theorem c10_check_tron_network_fail_closed :
    ∀ (inst : Option TronWebInstance) (activeTronChainId : String),
      (inst = none → checkTronNetwork inst activeTronChainId = false) ∧
      (∀ t, inst = some t → t.fullNode = none →
        checkTronNetwork inst activeTronChainId = false) ∧
      (∀ t fn, inst = some t → t.fullNode = some fn → fn.host = "" →
        checkTronNetwork inst activeTronChainId = false) ∧
      (activeTronChainId ≠ "TRON_MAINNET" → activeTronChainId ≠ "TRON_SHASTA" →
        checkTronNetwork inst activeTronChainId = false) ∧
      (checkTronNetwork inst activeTronChainId = true →
        ∃ t fn, inst = some t ∧ t.fullNode = some fn ∧ fn.host ≠ "" ∧
          ((activeTronChainId = "TRON_MAINNET" ∧
              mainnetHosts.any (fun host => jsIncludes fn.host.toLower host) = true) ∨
           (activeTronChainId = "TRON_SHASTA" ∧
              shastaHosts.any (fun host => jsIncludes fn.host.toLower host) = true))) := by
  intro inst activeTronChainId
  refine ⟨?_, ?_, ?_, ?_, ?_⟩
  · intro h; subst h; rfl
  · intro t hi hf; subst hi; simp [checkTronNetwork, hf]
  · intro t fn hi hf hh; subst hi; simp [checkTronNetwork, hf, hh]
  · intro h1 h2
    match inst with
    | none => rfl
    | some t =>
      match hf : t.fullNode with
      | none => simp [checkTronNetwork, hf]
      | some fn => simp [checkTronNetwork, hf, h1, h2]
  · intro h
    match inst with
    | none => exact absurd h (by simp [checkTronNetwork])
    | some t =>
      match hf : t.fullNode with
      | none => exact absurd h (by simp [checkTronNetwork, hf])
      | some fn =>
        by_cases hh : fn.host = ""
        · exact absurd h (by simp [checkTronNetwork, hf, hh])
        · by_cases hM : activeTronChainId = "TRON_MAINNET"
          · refine ⟨t, fn, rfl, hf, hh, Or.inl ⟨hM, ?_⟩⟩
            simpa [checkTronNetwork, hf, hh, hM] using h
          · by_cases hS : activeTronChainId = "TRON_SHASTA"
            · refine ⟨t, fn, rfl, hf, hh, Or.inr ⟨hS, ?_⟩⟩
              simpa [checkTronNetwork, hf, hh, hM, hS] using h
            · exact absurd h (by simp [checkTronNetwork, hf, hh, hM, hS])

theorem c10_check_tron_network_fail_closed_witness :
    checkTronNetwork none "TRON_MAINNET" = false ∧
    checkTronNetwork (some ⟨none, some ⟨"https://api.trongrid.io/jsonrpc"⟩, none⟩) "TRON_NILE"
      = false ∧
    checkTronNetwork (some ⟨none, some ⟨""⟩, none⟩) "TRON_MAINNET" = false :=
  ⟨(c10_check_tron_network_fail_closed none "TRON_MAINNET").1 rfl,
   (c10_check_tron_network_fail_closed
      (some ⟨none, some ⟨"https://api.trongrid.io/jsonrpc"⟩, none⟩) "TRON_NILE").2.2.2.1
      (by decide) (by decide),
   (c10_check_tron_network_fail_closed
      (some ⟨none, some ⟨""⟩, none⟩) "TRON_MAINNET").2.2.1
      ⟨none, some ⟨""⟩, none⟩ ⟨""⟩ rfl rfl rfl⟩
